import Mathlib

/-!
Verification development for the multi-stage plan-execute-validate-retry
orchestration engine (Planner → SQL → Validator → Output over a shared
`DataPipelineState`, wired by a LangGraph `StateGraph` in `src/main.py`).

The Python sources are embedded shallowly:

* pure string manipulation (`strip`, `lower`, `in`, `find`, `rfind`,
  `replace`) is modelled on `List Char`;
* JSON values produced by `json.loads` are modelled by the inductive `JVal`,
  and `json.loads` itself — an external library call — is a parameter
  `jp : List Char → Option JVal` (`none` = the parse raised);
* every external delegate call (Gemini via `google-genai` or LangChain,
  sqlite execution via `pandas.read_sql_query`) is a parameter returning
  `Except String …`, where `Except.error` models the call raising;
* one pipeline pass of each agent node is a Lean function on `PState`,
  with Python `try/except` rendered as a match on the explicit error
  results of the operations the `try` block performs;
* the compiled graph is the step function `stepG` / fuelled runner `runG`.
-/

/-! ### Python string primitives -/

/-- Python whitespace test used by `str.strip` (space, tab, newline,
carriage return, vertical tab, form feed). -/
def pyIsSpace (c : Char) : Bool :=
  c == ' ' || c == '\t' || c == '\n' || c == '\r' ||
    c == Char.ofNat 11 || c == Char.ofNat 12

/-- Python `str.strip()`. -/
def pyStrip (s : List Char) : List Char :=
  ((s.dropWhile pyIsSpace).reverse.dropWhile pyIsSpace).reverse

/-- Python `str.lower()` (ASCII view, which covers every token the code
compares against). -/
def pyLower (s : List Char) : List Char := s.map Char.toLower

/-- `listPrefixOf a b`: `a` occurs at the head of `b`. -/
def listPrefixOf : List Char → List Char → Bool
  | [], _ => true
  | _ :: _, [] => false
  | a :: as, b :: bs => a == b && listPrefixOf as bs

/-- Python substring test `needle in hay`. -/
def containsList (needle : List Char) : List Char → Bool
  | [] => needle.isEmpty
  | c :: rest => listPrefixOf needle (c :: rest) || containsList needle rest

/-- Python `str.find` for a single character (index of first occurrence). -/
def pyFind (c : Char) : List Char → Option Nat
  | [] => none
  | x :: xs => if x == c then some 0 else (pyFind c xs).map (· + 1)

/-- Python `str.rfind` for a single character (index of last occurrence). -/
def pyRFind (c : Char) (l : List Char) : Option Nat :=
  (pyFind c l.reverse).map (fun i => l.length - 1 - i)

/-- Fuelled worker for Python `str.replace`: replaces non-overlapping
occurrences left to right.  The fuel only bounds the recursion; with
`fuel ≥ s.length` (as `pyReplace` supplies) it never runs out, because each
step consumes at least one character of `s`. -/
def replaceFuel (pat sub : List Char) : Nat → List Char → List Char
  | 0, s => s
  | _ + 1, [] => []
  | fuel + 1, c :: rest =>
    if !pat.isEmpty && listPrefixOf pat (c :: rest) then
      sub ++ replaceFuel pat sub fuel ((c :: rest).drop pat.length)
    else
      c :: replaceFuel pat sub fuel rest

/-- Python `s.replace(pat, sub)`. -/
def pyReplace (pat sub s : List Char) : List Char := replaceFuel pat sub s.length s

/-- The character `\x7b`, written by code point to keep it out of string
literals. -/
def lbrace : Char := Char.ofNat 123

/-- The character `\x7d`. -/
def rbrace : Char := Char.ofNat 125

/-! ### JSON values (results of `json.loads`) -/

/-- A parsed JSON document, the value space of every `Dict[str, Any]` the
pipeline threads around (plans, outputs). -/
inductive JVal where
  | null : JVal
  | jbool : Bool → JVal
  | jnum : ℚ → JVal
  | jstr : String → JVal
  | jarr : List JVal → JVal
  | jobj : List (String × JVal) → JVal

/-- First binding of `key` in an association list (Python dicts have unique
keys, so this is dict lookup). -/
def jlookup : List (String × JVal) → String → Option JVal
  | [], _ => none
  | (k, v) :: rest, key => if k == key then some v else jlookup rest key

/-- Dict lookup on a `JVal`, `none` when absent or not an object. -/
def jlookupV : JVal → String → Option JVal
  | JVal.jobj l, key => jlookup l key
  | _, _ => none

/-- Python `plan.get(key, dflt)`: raises `AttributeError` when `plan` is not
a dict. -/
def jgetD (v : JVal) (key : String) (dflt : JVal) : Except String JVal :=
  match v with
  | JVal.jobj l => Except.ok ((jlookup l key).getD dflt)
  | _ => Except.error "AttributeError: object has no attribute get"

/-- Python truthiness of a JSON value (`not plan`). -/
def pyFalsy : JVal → Bool
  | JVal.null => true
  | JVal.jbool b => !b
  | JVal.jnum q => q == 0
  | JVal.jstr s => s == ""
  | JVal.jarr l => l.isEmpty
  | JVal.jobj l => l.isEmpty

/-- Rendering of `plan.get("confidence", 0)` inside the planner log f-string
(`planner_agent.py` line 181); non-numeric values get an opaque rendering. -/
def confShow (p : JVal) : String :=
  match jlookupV p "confidence" with
  | some (JVal.jnum q) => toString q
  | some _ => "value"
  | none => "0"

/-! ### Data model (`src/state.py`) -/

/-- One metadata column descriptor as the planner consumes it: the planner
fallback reads only `col.get("column_name")` (`planner_agent.py` line 150);
the remaining keys (`data_type`, `description`, `sample_values`) feed only
prompt text for the external delegates and are not modelled. -/
structure MetaCol where
  column_name : Option String
deriving DecidableEq

/-- A pandas `DataFrame`: named columns and rows of cell values. -/
structure DataFrame where
  cols : List String
  rows : List (List String)
deriving DecidableEq

/-- pandas `df.empty`: true when either axis has length 0. -/
def DataFrame.isEmpty (df : DataFrame) : Bool := df.rows.isEmpty || df.cols.isEmpty

/-- `schema_info` built in `generate_sql_with_llm` (`sql_agent.py` lines
46–49): column names plus the first three rows; together with the plan it
determines the prompt handed to the SQL delegate. -/
structure SchemaInfo where
  columns : List String
  sample_rows : List (List String)
deriving DecidableEq

/-- `DataPipelineState` (`src/state.py` lines 5–39).  `Optional` fields are
`Option`; `metadata : Optional[List[...]] = None` is collapsed to a list
(`None` and `[]` are used interchangeably by the code, which only ever
truthiness-tests or slices it).  The pydantic default `plan = {}` is
`some (JVal.jobj [])`.  Note there is **no** field `queried_output`: it is
not declared in `DataPipelineState`, and pydantic v2 with default `extra`
behaviour silently drops the `queried_output=None` constructor argument in
`main.py` line 88. -/
structure PState where
  user_query : String
  metadata : List MetaCol := []
  df : Option DataFrame := none
  plan : Option JVal := some (JVal.jobj [])
  plan_steps : Option JVal := none
  sme_output : Option JVal := none
  sql_query : Option String := none
  queried_data : Option DataFrame := none
  validation_result : Option String := none
  validation_status : Option Bool := none
  validation_feedback : Option String := none
  insights : Option String := none
  visuals : Option (List String) := none
  next : String := ""
  output : Option JVal := none
  logs : List String := []

/-- `state.add_log(message)` (`state.py` lines 44–45): append-only log. -/
def addLog (s : PState) (m : String) : PState := { s with logs := s.logs ++ [m] }

/-! ### PlanStage (`src/agents/planner_agent.py`) -/

/-- The conservative fallback plan built when the delegate response cannot
be parsed as JSON (`planner_agent.py` lines 148–163).  `uuid` models
`str(uuid.uuid4())`; quotes inside the source hint string are dropped. -/
def fallback_plan (uuid : String) (metadata : List MetaCol) (text : List Char) : JVal :=
  JVal.jobj [
    ("plan_id", JVal.jstr uuid),
    ("columns_to_use", JVal.jarr ((metadata.take 3).map (fun c =>
      match c.column_name with
      | some n => JVal.jstr n
      | none => JVal.null))),
    ("filters", JVal.jarr []),
    ("aggregations", JVal.jarr []),
    ("group_by", JVal.jarr []),
    ("order_by", JVal.jarr []),
    ("limit", JVal.null),
    ("sql_template", JVal.null),
    ("hints", JVal.jarr [JVal.jstr "Model returned non-JSON; inspect raw_model_output for details"]),
    ("steps", JVal.jarr [JVal.jstr "inspect model output", JVal.jstr "ask SME agent for clarification"]),
    ("confidence", JVal.jnum ((1 : ℚ) / 4)),
    ("explain", JVal.jstr "Fallback plan because the LLM output could not be parsed as JSON."),
    ("raw_model_output", JVal.jstr (String.mk text))
  ]

/-- The `text[start:end+1]` extraction attempted when direct parsing fails
(`planner_agent.py` lines 137–140): from the first `\x7b` to the last
`\x7d`, provided both exist and the end is strictly after the start. -/
def extractCandidate (text : List Char) : Option (List Char) :=
  match pyFind lbrace text, pyRFind rbrace text with
  | some a, some b => if a < b then some ((text.drop a).take (b + 1 - a)) else none
  | _, _ => none

/-- `generate_plan_with_gemini` after the delegate has answered
(`planner_agent.py` lines 129–163): strip, try `json.loads` on the whole
text, then on the first-brace-to-last-brace slice, else the fallback plan.
`jp` models `json.loads` (`none` = raised). -/
def generate_plan_with_gemini (jp : List Char → Option JVal) (uuid : String)
    (metadata : List MetaCol) (raw : List Char) : JVal :=
  match jp (pyStrip raw) with
  | some plan => plan
  | none =>
    match extractCandidate (pyStrip raw) with
    | some maybe =>
      match jp maybe with
      | some plan => plan
      | none => fallback_plan uuid metadata (pyStrip raw)
    | none => fallback_plan uuid metadata (pyStrip raw)

/-- `planner_node` (`planner_agent.py` lines 168–188).  `d` is the delegate
call inside `generate_plan_with_gemini` (client construction plus
`generate_content`; `Except.error` = raised).  On an in-`try` exception the
handler logs and sets `plan = None` (line 187); `plan.get("steps", [])`
raising on a non-dict parse result follows the same path. -/
def planner_node (d : Except String (List Char)) (jp : List Char → Option JVal)
    (uuid : String) (s : PState) : PState :=
  if s.metadata.isEmpty || s.user_query == "" then
    addLog s "Planner: missing metadata or user_query."
  else
    match d with
    | Except.error e => { s with plan := none, logs := s.logs ++ ["Planner error: " ++ e] }
    | Except.ok raw =>
      match jgetD (generate_plan_with_gemini jp uuid s.metadata raw) "steps" (JVal.jarr []) with
      | Except.error e => { s with plan := none, logs := s.logs ++ ["Planner error: " ++ e] }
      | Except.ok steps =>
        { s with
          plan := some (generate_plan_with_gemini jp uuid s.metadata raw),
          plan_steps := some steps,
          logs := s.logs ++
            ["Planner: Generated plan with confidence " ++
               confShow (generate_plan_with_gemini jp uuid s.metadata raw) ++ ".",
             "Planner: Passing control to SME Agent."] }

/-! ### QueryStage (`src/agents/sql_agent.py`) -/

/-- Fence stripping applied to the raw delegate SQL (`sql_agent.py` line
76): `raw.strip().replace("```sqlite", "").replace("```", "").strip()`. -/
def stripSqlFences (raw : List Char) : List Char :=
  pyStrip (pyReplace ("```".toList) [] (pyReplace ("```sqlite".toList) [] (pyStrip raw)))

/-- `generate_sql_with_llm` (`sql_agent.py` lines 42–78).  The prompt is a
fixed text around `json.dumps(schema_info)` and `json.dumps(plan)`, hence a
deterministic function of `(schema_info df, plan)`; the delegate `d`
therefore receives those two values (`Except.error` = the call raised). -/
def generate_sql_with_llm (d : SchemaInfo → JVal → Except String String)
    (plan : JVal) (df : DataFrame) : Except String String :=
  if pyFalsy plan then Except.error "Planner plan is empty."
  else
    match d (SchemaInfo.mk df.cols (df.rows.take 3)) plan with
    | Except.error e => Except.error e
    | Except.ok raw => Except.ok (String.mk (stripSqlFences raw.toList))

/-- The `except` handler of `sql_agent_node` (`sql_agent.py` lines
111–114): log the error and set `queried_data = None`, keeping every
mutation made before the raise. -/
def sqlFail (s : PState) (e : String) : PState :=
  { s with logs := s.logs ++ ["SQL Agent Error: " ++ e], queried_data := none }

/-- `sql_agent_node` (`sql_agent.py` lines 86–114).  `hasattr` is always
true for declared pydantic fields, so the guards reduce to `is None`
checks; `df_to_sqlite` raises when the frame is empty (lines 26–28);
`exec` is the sqlite execution `pd.read_sql_query` (`Except.error` =
raised). -/
def sql_agent_node (d : SchemaInfo → JVal → Except String String)
    (exec : String → DataFrame → Except String DataFrame) (s : PState) : PState :=
  match s.df with
  | none => sqlFail s "State has no DataFrame (state.df) to query."
  | some df =>
    match s.plan with
    | none => sqlFail s "Planner output (state.plan) is missing."
    | some plan =>
      if df.isEmpty then sqlFail s "DataFrame is empty or None"
      else
        let s1 := addLog s "SQL Agent: DataFrame loaded into temp_db.sqlite as table data"
        match generate_sql_with_llm d plan df with
        | Except.error e => sqlFail s1 e
        | Except.ok sql =>
          let s2 := { s1 with
            sql_query := some sql,
            logs := s1.logs ++ ["SQL Agent: Generated SQL query via LLM:\n" ++ sql] }
          match exec sql df with
          | Except.error e => sqlFail s2 e
          | Except.ok res =>
            { s2 with
              queried_data := some res,
              logs := s2.logs ++
                ["SQL Agent: Query executed successfully. Retrieved " ++
                  toString res.rows.length ++ " rows."] }

/-! ### ValidationStage (`src/agents/validator_agent.py`) -/

/-- The defensive parse of the validator delegate response
(`validator_agent.py` lines 70–77): `text.strip().lower()`, then `"valid"`
iff the text contains `valid` and does not contain `not`; everything else
(including anything containing `not valid`) resolves to `"not valid"`. -/
def parseVerdict (raw : List Char) : String :=
  if containsList ("valid".toList) (pyLower (pyStrip raw)) &&
      !containsList ("not".toList) (pyLower (pyStrip raw)) then "valid"
  else if containsList ("not valid".toList) (pyLower (pyStrip raw)) then "not valid"
  else "not valid"

/-- `validate_output_with_gemini` (`validator_agent.py` lines 23–77) seen
from its caller: the delegate call may raise (`Except.error`), otherwise its
text is parsed by `parseVerdict`. -/
def validate_output_with_gemini (d : Except String (List Char)) : Except String String :=
  match d with
  | Except.error e => Except.error e
  | Except.ok raw => Except.ok (parseVerdict raw)

/-- The `except` handler of `validator_agent_node` (`validator_agent.py`
lines 100–104): log, verdict `"not valid"`, `next = "Planner"`. -/
def validatorFail (s : PState) (e : String) : PState :=
  { s with
    logs := s.logs ++ ["Validator Agent Error: " ++ e],
    validation_result := some "not valid",
    next := "Planner" }

/-- `validator_agent_node` (`validator_agent.py` lines 82–104).  The
precondition raise (line 87–88) and a delegate raise both land in the
handler.  On success the verdict is recorded and logged, then line 93
rebinds the local `result` to `"valid"`, so the dead `else` of lines 94–97
is kept verbatim: `next` is always `"Output"` on this path. -/
def validator_agent_node (d : Except String (List Char)) (s : PState) : PState :=
  match s.plan, s.queried_data with
  | some _, some _ =>
    match validate_output_with_gemini d with
    | Except.error e => validatorFail s e
    | Except.ok result =>
      let s1 := { s with
        validation_result := some result,
        logs := s.logs ++ ["Validator Agent: Validation result -> " ++ result] }
      let result := "valid"
      if result == "valid" then { s1 with next := "Output" }
      else { s1 with next := "Planner" }
  | _, _ => validatorFail s "Missing plan or queried data in state for validation."

/-! ### OutputStage (`src/agents/output_agent.py`) -/

/-- The `AttributeError` text raised by reading `state.queried_output`
(quotes dropped). -/
def attrErr : String :=
  "AttributeError: DataPipelineState object has no attribute queried_output"

/-- The attribute read `state.queried_output` (`output_agent.py` line 73):
`queried_output` is not a declared field of `DataPipelineState`
(`state.py` lines 5–39), pydantic drops the extra constructor argument of
`main.py` line 88, and no stage ever assigns it (the SQL agent writes
`queried_data`, line 107) — so the access raises `AttributeError` for every
state. -/
def getattr_queried_output (_ : PState) : Except String (Option DataFrame) :=
  Except.error attrErr

/-- The `json.loads`-or-fallback parse of the output delegate response
(`output_agent.py` lines 89–96): on unparseable content, empty `charts` and
a single insight holding the stripped raw text. -/
def parse_output_response (jp : List Char → Option JVal) (content : List Char) : JVal :=
  match jp content with
  | some v => v
  | none =>
    JVal.jobj [("charts", JVal.jarr []),
      ("insights", JVal.jarr [JVal.jstr (String.mk (pyStrip content))])]

/-- `run_output_agent` (`output_agent.py` lines 68–100).  There is no
`try/except` around the precondition or the delegate call, so those raises
escape to the caller; only the JSON parse is guarded (lines 90–96).  The
attribute read on line 73 raises before anything else can happen. -/
def run_output_agent (jp : List Char → Option JVal) (d : Except String (List Char))
    (s : PState) : Except String PState :=
  match getattr_queried_output s with
  | Except.error e => Except.error e
  | Except.ok qo =>
    match qo with
    | none => Except.error "No data available for output generation."
    | some df =>
      if df.isEmpty then Except.error "No data available for output generation."
      else
        match d with
        | Except.error e => Except.error e
        | Except.ok content =>
          Except.ok { s with output := some (parse_output_response jp content) }

/-! ### Orchestrator (`src/main.py` lines 19–44) -/

/-- `check_validation` (`main.py` lines 33–38): `hasattr` is always true
for the declared field, so the route is decided by
`state.validation_result.lower() == "valid"`; when `validation_result` is
`None` the `.lower()` call raises. -/
def check_validation (s : PState) : Except String String :=
  match s.validation_result with
  | none => Except.error "AttributeError: NoneType object has no attribute lower"
  | some v =>
    if String.mk (pyLower v.toList) == "valid" then Except.ok "output_agent"
    else Except.ok "planner_agent"

/-- The four graph nodes of `build_graph`. -/
inductive GNode where
  | planner | sql | validator | output
deriving DecidableEq

/-- The external world of one run: per-pass delegate behaviours, indexed by
the global step counter (each retry calls the delegates afresh). -/
structure Oracles where
  planResp : Nat → Except String (List Char)
  uuid : Nat → String
  sqlResp : Nat → SchemaInfo → JVal → Except String String
  execQ : Nat → String → DataFrame → Except String DataFrame
  validResp : Nat → Except String (List Char)
  outResp : Nat → Except String (List Char)

/-- One super-step of the compiled graph: the fixed edges
`planner → sql → validator` (`main.py` lines 29–30), the conditional edge
from the validator (line 40), and `output → END` (line 42).  `Sum.inr` models
reaching `END`; an uncaught node exception is `Except.error`. -/
def stepG (jp : List Char → Option JVal) (o : Oracles) (k : Nat) :
    GNode → PState → Except String (Sum (GNode × PState) PState)
  | GNode.planner, s =>
    Except.ok (Sum.inl (GNode.sql, planner_node (o.planResp k) jp (o.uuid k) s))
  | GNode.sql, s =>
    Except.ok (Sum.inl (GNode.validator, sql_agent_node (o.sqlResp k) (o.execQ k) s))
  | GNode.validator, s =>
    match check_validation (validator_agent_node (o.validResp k) s) with
    | Except.error e => Except.error e
    | Except.ok r =>
      if r == "output_agent" then
        Except.ok (Sum.inl (GNode.output, validator_agent_node (o.validResp k) s))
      else
        Except.ok (Sum.inl (GNode.planner, validator_agent_node (o.validResp k) s))
  | GNode.output, s =>
    match run_output_agent jp (o.outResp k) s with
    | Except.error e => Except.error e
    | Except.ok s2 => Except.ok (Sum.inr s2)

/-- Fuelled run of the compiled graph from node `n`.  `Except.ok none`
means the run is still going when the fuel ends, `Except.ok (some fin)`
normal termination at `END`, `Except.error` an uncaught exception. -/
def runG (jp : List Char → Option JVal) (o : Oracles) :
    Nat → Nat → GNode → PState → Except String (Option PState)
  | 0, _, _, _ => Except.ok none
  | Nat.succ fuel, k, n, s =>
    match stepG jp o k n s with
    | Except.error e => Except.error e
    | Except.ok (Sum.inr fin) => Except.ok (some fin)
    | Except.ok (Sum.inl (n2, s2)) => runG jp o fuel (k + 1) n2 s2

/-- A run outcome that is a normal termination with a final state. -/
def terminatedOk : Except String (Option PState) → Bool
  | Except.ok (some _) => true
  | _ => false

/-! ### Concrete instances used by witnesses and counterexamples -/

/-- A `json.loads` model that rejects every input. -/
def jp0 : List Char → Option JVal := fun _ => none

/-- Unused SQL delegate. -/
def d0 : SchemaInfo → JVal → Except String String := fun _ _ => Except.error "unused"

/-- SQL delegate returning a fixed query. -/
def dOk : SchemaInfo → JVal → Except String String :=
  fun _ _ => Except.ok "SELECT * FROM data"

/-- Unused store. -/
def e0 : String → DataFrame → Except String DataFrame := fun _ _ => Except.error "unused"

/-- A deterministic store returning the materialized table itself. -/
def eId : String → DataFrame → Except String DataFrame := fun _ df => Except.ok df

/-- A one-column, one-row table. -/
def df1 : DataFrame := DataFrame.mk ["region"] [["north"]]

/-- A minimal non-falsy plan. -/
def plan1 : JVal := JVal.jobj [("columns_to_use", JVal.jarr [JVal.jstr "region"])]

/-- Oracles for a run in which the validator delegate answers `not valid`
on every pass and every other delegate behaves normally. -/
def oracleNV : Oracles :=
  Oracles.mk (fun _ => Except.ok ("p".toList)) (fun _ => "id")
    (fun _ _ _ => Except.ok "SELECT 1") (fun _ _ df => Except.ok df)
    (fun _ => Except.ok ("not valid".toList)) (fun _ => Except.ok ("x".toList))

/-- State as built in `main.py` lines 84–90 (the dropped `queried_output`
argument has no field to land in). -/
def mainState : PState :=
  { user_query := "total sales by region",
    metadata := [MetaCol.mk (some "region"), MetaCol.mk (some "sales")],
    df := some df1 }

/-- A state in which an earlier pass has populated `queried_data` but the
source frame is gone. -/
def staleState : PState :=
  { user_query := "q", metadata := [MetaCol.mk (some "region")], df := none,
    plan := some plan1, queried_data := some df1 }

/-- A state ready for validation (plan and result present). -/
def readyState : PState :=
  { user_query := "q", metadata := [MetaCol.mk (some "region")], df := some df1,
    plan := some plan1, queried_data := some df1 }

/-- A state whose plan is missing (as the planner handler leaves it). -/
def noPlanState : PState :=
  { user_query := "q", metadata := [MetaCol.mk (some "region")], df := some df1,
    plan := none, queried_data := some df1 }

/-- Single-column metadata. -/
def md1 : List MetaCol := [MetaCol.mk (some "region")]

/-- Two runnable states that agree on `df` and `plan` but differ elsewhere. -/
def detA : PState := { user_query := "first question", df := some df1, plan := some plan1 }

/-- See `detA`. -/
def detB : PState :=
  { user_query := "second question", df := some df1, plan := some plan1,
    logs := ["old log"], sql_query := some "stale" }

/-! ## Supporting lemmas -/

theorem listPrefixOf_append (a b l : List Char) (h : listPrefixOf (a ++ b) l = true) :
    listPrefixOf a l = true := by
  induction a generalizing l with
  | nil => rfl
  | cons x xs ih =>
    cases l with
    | nil => simp [listPrefixOf] at h
    | cons y ys =>
      simp only [List.cons_append, listPrefixOf, Bool.and_eq_true] at h ⊢
      exact ⟨h.1, ih ys h.2⟩

theorem containsList_of_append (a b h : List Char) (hc : containsList (a ++ b) h = true) :
    containsList a h = true := by
  induction h with
  | nil =>
    simp only [containsList, List.isEmpty_eq_true, List.append_eq_nil] at hc ⊢
    exact hc.1
  | cons c rest ih =>
    simp only [containsList, Bool.or_eq_true] at hc ⊢
    rcases hc with hc | hc
    · exact Or.inl (listPrefixOf_append a b _ hc)
    · exact Or.inr (ih hc)

theorem contains_not_of_contains_not_valid (t : List Char)
    (h : containsList ("not valid".toList) t = true) :
    containsList ("not".toList) t = true := by
  have hsplit : ("not".toList ++ " valid".toList) = "not valid".toList := by decide
  exact containsList_of_append _ _ _ (by rw [hsplit]; exact h)

theorem parseVerdict_valid_imp (raw : List Char) (h : parseVerdict raw = "valid") :
    containsList ("valid".toList) (pyLower (pyStrip raw)) = true ∧
      containsList ("not".toList) (pyLower (pyStrip raw)) = false := by
  unfold parseVerdict at h
  by_cases h1 : (containsList ("valid".toList) (pyLower (pyStrip raw)) &&
      !containsList ("not".toList) (pyLower (pyStrip raw))) = true
  · rw [Bool.and_eq_true] at h1
    exact ⟨h1.1, by rcases h2 : containsList ("not".toList) (pyLower (pyStrip raw)) with _ | _
                    · rfl
                    · rw [h2] at h1; exact absurd h1.2 (by decide)⟩
  · rw [if_neg h1] at h
    by_cases h2 : containsList ("not valid".toList) (pyLower (pyStrip raw)) = true
    · rw [if_pos h2] at h
      exact absurd h (by decide)
    · rw [if_neg h2] at h
      exact absurd h (by decide)

theorem parseVerdict_cases (raw : List Char) :
    parseVerdict raw = "valid" ∨ parseVerdict raw = "not valid" := by
  unfold parseVerdict
  by_cases h1 : (containsList ("valid".toList) (pyLower (pyStrip raw)) &&
      !containsList ("not".toList) (pyLower (pyStrip raw))) = true
  · rw [if_pos h1]
    exact Or.inl rfl
  · rw [if_neg h1]
    by_cases h2 : containsList ("not valid".toList) (pyLower (pyStrip raw)) = true
    · rw [if_pos h2]
      exact Or.inr rfl
    · rw [if_neg h2]
      exact Or.inr rfl

theorem validator_agent_node_plan_none (d : Except String (List Char)) (s : PState)
    (hp : s.plan = none) :
    validator_agent_node d s =
      validatorFail s "Missing plan or queried data in state for validation." := by
  unfold validator_agent_node
  rw [hp]

theorem validator_agent_node_qd_none (d : Except String (List Char)) (s : PState)
    (hq : s.queried_data = none) :
    validator_agent_node d s =
      validatorFail s "Missing plan or queried data in state for validation." := by
  unfold validator_agent_node
  rw [hq]
  rcases hp : s.plan with _ | p <;> rfl

theorem validator_agent_node_delegate_err (e : String) (s : PState) (p : JVal) (q : DataFrame)
    (hp : s.plan = some p) (hq : s.queried_data = some q) :
    validator_agent_node (Except.error e) s = validatorFail s e := by
  unfold validator_agent_node
  rw [hp, hq]
  rfl

theorem validator_agent_node_ok (raw : List Char) (s : PState) (p : JVal) (q : DataFrame)
    (hp : s.plan = some p) (hq : s.queried_data = some q) :
    validator_agent_node (Except.ok raw) s =
      { s with
        validation_result := some (parseVerdict raw),
        logs := s.logs ++ ["Validator Agent: Validation result -> " ++ parseVerdict raw],
        next := "Output" } := by
  unfold validator_agent_node
  rw [hp, hq]
  rfl

theorem check_validation_of_valid (s : PState) (h : s.validation_result = some "valid") :
    check_validation s = Except.ok "output_agent" := by
  unfold check_validation
  rw [h]
  rfl

theorem check_validation_of_not_valid (s : PState) (h : s.validation_result = some "not valid") :
    check_validation s = Except.ok "planner_agent" := by
  unfold check_validation
  rw [h]
  rfl

theorem validator_sets_verdict (d : Except String (List Char)) (s : PState) :
    (validator_agent_node d s).validation_result = some "valid" ∨
      (validator_agent_node d s).validation_result = some "not valid" := by
  rcases hp : s.plan with _ | p
  · rw [validator_agent_node_plan_none d s hp]; exact Or.inr rfl
  · rcases hq : s.queried_data with _ | q
    · rw [validator_agent_node_qd_none d s hq]; exact Or.inr rfl
    · cases d with
      | error e => rw [validator_agent_node_delegate_err e s p q hp hq]; exact Or.inr rfl
      | ok raw =>
        rw [validator_agent_node_ok raw s p q hp hq]
        rcases parseVerdict_cases raw with h | h <;> rw [show ({ s with
          validation_result := some (parseVerdict raw),
          logs := s.logs ++ ["Validator Agent: Validation result -> " ++ parseVerdict raw],
          next := "Output" } : PState).validation_result = some (parseVerdict raw) from rfl, h]
        · exact Or.inl rfl
        · exact Or.inr rfl

/-! ## Claims -/

/-- Claim C5: the validator parse is defensive — it answers `valid` only
when the normalized response text contains the valid token and not the
negated token; an empty or all-whitespace response, and a response
containing both tokens, always resolve to `not valid`
(`validator_agent.py` lines 70–77). -/
theorem validator_parse_is_defensive (raw : List Char) :
    (parseVerdict raw = "valid" →
      containsList ("valid".toList) (pyLower (pyStrip raw)) = true ∧
        containsList ("not valid".toList) (pyLower (pyStrip raw)) = false) ∧
    (pyStrip raw = [] → parseVerdict raw = "not valid") ∧
    (containsList ("valid".toList) (pyLower (pyStrip raw)) = true →
      containsList ("not valid".toList) (pyLower (pyStrip raw)) = true →
      parseVerdict raw = "not valid") := by
  refine ⟨?_, ?_, ?_⟩
  · intro h
    have hv := parseVerdict_valid_imp raw h
    refine ⟨hv.1, ?_⟩
    cases hnv : containsList ("not valid".toList) (pyLower (pyStrip raw)) with
    | false => rfl
    | true =>
      have := contains_not_of_contains_not_valid _ hnv
      rw [hv.2] at this
      exact absurd this (by decide)
  · intro h0
    have ht : pyLower (pyStrip raw) = [] := by rw [h0]; rfl
    rw [parseVerdict, ht]
    decide
  · intro hv hnv
    have hn := contains_not_of_contains_not_valid _ hnv
    rw [parseVerdict, hv, hn, hnv]
    decide

/-- Witness for C5 at the concrete response `" Not valid."`. -/
theorem validator_parse_is_defensive_witness :
    parseVerdict (" Not valid.".toList) = "not valid" :=
  (validator_parse_is_defensive (" Not valid.".toList)).2.2 (by decide) (by decide)

/-- Claim C1: after any completed validator pass, the orchestrator's
conditional edge selects `output_agent` exactly when the verdict recorded
in `validation_result` is `valid`, and `planner_agent` exactly when it is
`not valid` (`main.py` lines 33–40); a pass that records `not valid` is
never routed to the output stage. -/
theorem orchestrator_routes_on_recorded_verdict (d : Except String (List Char)) (s : PState) :
    (check_validation (validator_agent_node d s) = Except.ok "output_agent" ↔
      (validator_agent_node d s).validation_result = some "valid") ∧
    (check_validation (validator_agent_node d s) = Except.ok "planner_agent" ↔
      (validator_agent_node d s).validation_result = some "not valid") := by
  rcases validator_sets_verdict d s with h | h
  · have hc := check_validation_of_valid _ h
    refine ⟨⟨fun _ => h, fun _ => hc⟩, ⟨fun hcp => ?_, fun hv => ?_⟩⟩
    · rw [hc] at hcp
      exact absurd (Except.ok.inj hcp) (by decide)
    · rw [h] at hv
      exact absurd (Option.some.inj hv) (by decide)
  · have hc := check_validation_of_not_valid _ h
    refine ⟨⟨fun hco => ?_, fun hv => ?_⟩, ⟨fun _ => h, fun _ => hc⟩⟩
    · rw [hc] at hco
      exact absurd (Except.ok.inj hco) (by decide)
    · rw [h] at hv
      exact absurd (Option.some.inj hv) (by decide)

/-- Witness for C1: a pass whose delegate answers `valid` on a ready state
is routed to `output_agent`. -/
theorem orchestrator_routes_on_recorded_verdict_witness :
    check_validation (validator_agent_node (Except.ok ("valid".toList)) readyState) =
      Except.ok "output_agent" :=
  (orchestrator_routes_on_recorded_verdict (Except.ok ("valid".toList)) readyState).1.mpr
    (by decide)

/-- Claim C8: when `plan` or `queried_data` is missing, the validator's
precondition failure records the verdict `not valid`, sets the node's own
route field to `Planner`, and the orchestrator edge selects
`planner_agent`, never the output stage (`validator_agent.py` lines
86–104, `main.py` lines 33–40). -/
theorem validator_precondition_routes_to_planner (d : Except String (List Char)) (s : PState)
    (h : s.plan = none ∨ s.queried_data = none) :
    (validator_agent_node d s).validation_result = some "not valid" ∧
    (validator_agent_node d s).next = "Planner" ∧
    check_validation (validator_agent_node d s) = Except.ok "planner_agent" := by
  have hfail : validator_agent_node d s =
      validatorFail s "Missing plan or queried data in state for validation." := by
    rcases h with h | h
    · exact validator_agent_node_plan_none d s h
    · exact validator_agent_node_qd_none d s h
  rw [hfail]
  exact ⟨rfl, rfl, check_validation_of_not_valid _ rfl⟩

/-- Witness for C8: validation after a failed query pass (null
`queried_data`) routes back to the planner. -/
theorem validator_precondition_routes_to_planner_witness :
    check_validation (validator_agent_node (Except.ok ("valid".toList))
      { mainState with queried_data := none }) = Except.ok "planner_agent" :=
  (validator_precondition_routes_to_planner (Except.ok ("valid".toList))
    { mainState with queried_data := none } (Or.inr rfl)).2.2

theorem sql_agent_node_df_none (d : SchemaInfo → JVal → Except String String)
    (exec : String → DataFrame → Except String DataFrame) (s : PState) (h : s.df = none) :
    sql_agent_node d exec s = sqlFail s "State has no DataFrame (state.df) to query." := by
  unfold sql_agent_node
  rw [h]

theorem sql_agent_node_plan_none (d : SchemaInfo → JVal → Except String String)
    (exec : String → DataFrame → Except String DataFrame) (s : PState) (df : DataFrame)
    (h1 : s.df = some df) (h2 : s.plan = none) :
    sql_agent_node d exec s = sqlFail s "Planner output (state.plan) is missing." := by
  unfold sql_agent_node
  rw [h1, h2]

theorem sql_agent_node_df_empty (d : SchemaInfo → JVal → Except String String)
    (exec : String → DataFrame → Except String DataFrame) (s : PState) (df : DataFrame)
    (p : JVal) (h1 : s.df = some df) (h2 : s.plan = some p) (h3 : df.isEmpty = true) :
    sql_agent_node d exec s = sqlFail s "DataFrame is empty or None" := by
  unfold sql_agent_node
  rw [h1, h2]
  dsimp only
  rw [if_pos h3]

/-- Claim C7 (amended): on a failed precondition (`df` absent, `plan`
absent, or `df` empty) the SQL stage short-circuits before the store and
the delegate — the node result does not depend on either — and leaves
`sql_query` untouched, but it does touch `result_table`: the handler sets
`queried_data` to `None` regardless of its prior value (`sql_agent.py`
lines 111–114). -/
theorem query_stage_precondition_clears_result (d : SchemaInfo → JVal → Except String String)
    (exec : String → DataFrame → Except String DataFrame) (s : PState)
    (h : s.df = none ∨ s.plan = none ∨ ∃ df, s.df = some df ∧ df.isEmpty = true) :
    (sql_agent_node d exec s).queried_data = none ∧
    (sql_agent_node d exec s).sql_query = s.sql_query ∧
    ∀ d2 exec2, sql_agent_node d2 exec2 s = sql_agent_node d exec s := by
  have key : ∃ msg, ∀ d2 exec2, sql_agent_node d2 exec2 s = sqlFail s msg := by
    rcases h with h | h | ⟨df, hdf, hemp⟩
    · exact ⟨_, fun d2 e2 => sql_agent_node_df_none d2 e2 s h⟩
    · rcases hdf : s.df with _ | df
      · exact ⟨_, fun d2 e2 => sql_agent_node_df_none d2 e2 s hdf⟩
      · exact ⟨_, fun d2 e2 => sql_agent_node_plan_none d2 e2 s df hdf h⟩
    · rcases hp : s.plan with _ | p
      · exact ⟨_, fun d2 e2 => sql_agent_node_plan_none d2 e2 s df hdf hp⟩
      · exact ⟨_, fun d2 e2 => sql_agent_node_df_empty d2 e2 s df p hdf hp hemp⟩
  obtain ⟨msg, hkey⟩ := key
  refine ⟨?_, ?_, ?_⟩
  · rw [hkey d exec]
    rfl
  · rw [hkey d exec]
    rfl
  · intro d2 exec2
    rw [hkey d exec, hkey d2 exec2]

/-- Witness for C7's amended statement at a concrete failing state. -/
theorem query_stage_precondition_clears_result_witness :
    (sql_agent_node d0 e0 staleState).queried_data = none :=
  (query_stage_precondition_clears_result d0 e0 staleState (Or.inl rfl)).1

/-- Counterexample to C7 as stated: on `staleState` (missing `df`, stale
`queried_data` from an earlier pass) the stage resets `queried_data` to
`None`, so the value after the stage differs from the value before. -/
theorem query_stage_clobbers_prior_result :
    (sql_agent_node d0 e0 staleState).queried_data = none ∧
      staleState.queried_data = some df1 :=
  ⟨rfl, rfl⟩

/-- Claim C10: the SQL stage is deterministic in `(df, plan)` — two states
agreeing on `df` and `plan`, run against the same delegate and the same
store, produce identical `queried_data` (hence identical row count and
content) (`sql_agent.py` lines 42–109). -/
theorem query_stage_deterministic (d : SchemaInfo → JVal → Except String String)
    (exec : String → DataFrame → Except String DataFrame) (s t : PState)
    (h1 : s.df = t.df) (h2 : s.plan = t.plan) :
    (sql_agent_node d exec s).queried_data = (sql_agent_node d exec t).queried_data := by
  unfold sql_agent_node
  rw [h1, h2]
  rcases hd : t.df with _ | df
  · rfl
  · rcases hp : t.plan with _ | p
    · rfl
    · dsimp only
      rcases he : df.isEmpty with _ | _
      · rw [if_neg Bool.false_ne_true]
        rcases hg : generate_sql_with_llm d p df with e | sql
        · rfl
        · dsimp only
          rcases hx : exec sql df with e2 | res <;> rfl
      · rw [if_pos rfl]
        rfl

/-- Witness for C10: two states differing in everything but `df`/`plan`
produce the same `queried_data`. -/
theorem query_stage_deterministic_witness :
    (sql_agent_node dOk eId detA).queried_data = (sql_agent_node dOk eId detB).queried_data :=
  query_stage_deterministic dOk eId detA detB rfl rfl

/-- Claim C2 (amended): the planner, SQL and validator stages convert every
internal failure into a normal return (a verdict is always recorded, a
failing SQL delegate still yields a normal return with `queried_data =
None`, a failing planner delegate yields `plan = None` or the
missing-input log), but the output stage does **not** return normally: it
raises an unhandled `AttributeError` on every invocation, before consulting
its delegate (`output_agent.py` line 73). -/
theorem stage_error_containment :
    (∀ jp d s, run_output_agent jp d s = Except.error attrErr) ∧
    (∀ d s, (validator_agent_node d s).validation_result = some "valid" ∨
      (validator_agent_node d s).validation_result = some "not valid") ∧
    (∀ exec s m, (sql_agent_node (fun _ _ => Except.error m) exec s).queried_data = none) ∧
    (∀ jp uuid m s, (planner_node (Except.error m) jp uuid s).plan = none ∨
      planner_node (Except.error m) jp uuid s =
        addLog s "Planner: missing metadata or user_query.") := by
  refine ⟨fun jp d s => rfl, validator_sets_verdict, ?_, ?_⟩
  · intro exec s m
    rcases hdf : s.df with _ | df
    · rw [sql_agent_node_df_none _ _ s hdf]
      rfl
    · rcases hp : s.plan with _ | p
      · rw [sql_agent_node_plan_none _ _ s df hdf hp]
        rfl
      · rcases he : df.isEmpty with _ | _
        · have hg : ∃ e, generate_sql_with_llm (fun _ _ => Except.error m) p df =
              Except.error e := by
            unfold generate_sql_with_llm
            rcases hf : pyFalsy p with _ | _
            · rw [if_neg Bool.false_ne_true]
              exact ⟨m, rfl⟩
            · rw [if_pos rfl]
              exact ⟨_, rfl⟩
          obtain ⟨e, hg⟩ := hg
          unfold sql_agent_node
          rw [hdf, hp]
          dsimp only
          rw [if_neg (by rw [he]; exact Bool.false_ne_true), hg]
          rfl
        · rw [sql_agent_node_df_empty _ _ s df p hdf hp he]
          rfl
  · intro jp uuid m s
    by_cases hc : (s.metadata.isEmpty || s.user_query == "") = true
    · right
      unfold planner_node
      rw [if_pos hc]
    · left
      unfold planner_node
      rw [if_neg hc]

/-- Counterexample to C2 as stated: a concrete output-stage invocation on a
fully populated state raises instead of returning. -/
theorem output_stage_raises_cex :
    run_output_agent jp0 (Except.ok ("insight".toList)) readyState = Except.error attrErr :=
  rfl

/-- Claim C6: when the planner delegate's response parses as JSON neither
directly nor after the brace-slice extraction, the stage returns the
documented structurally-valid fallback plan — confidence 0.25 (< 0.3),
`columns_to_use` the first three metadata column names, a diagnostic hint —
and the planner node returns normally with that plan installed
(`planner_agent.py` lines 131–163). -/
theorem planner_fallback_on_unparseable (jp : List Char → Option JVal) (uuid : String)
    (metadata : List MetaCol) (raw : List Char) (hm : metadata ≠ [])
    (h1 : jp (pyStrip raw) = none)
    (h2 : ∀ m, extractCandidate (pyStrip raw) = some m → jp m = none) :
    generate_plan_with_gemini jp uuid metadata raw = fallback_plan uuid metadata (pyStrip raw) ∧
    jlookupV (generate_plan_with_gemini jp uuid metadata raw) "confidence" =
      some (JVal.jnum ((1 : ℚ) / 4)) ∧
    ((1 : ℚ) / 4 < 3 / 10) ∧
    jlookupV (generate_plan_with_gemini jp uuid metadata raw) "columns_to_use" =
      some (JVal.jarr ((metadata.take 3).map (fun c =>
        match c.column_name with
        | some n => JVal.jstr n
        | none => JVal.null))) ∧
    jlookupV (generate_plan_with_gemini jp uuid metadata raw) "hints" =
      some (JVal.jarr
        [JVal.jstr "Model returned non-JSON; inspect raw_model_output for details"]) ∧
    (∀ s : PState, s.metadata = metadata → s.user_query ≠ "" →
      (planner_node (Except.ok raw) jp uuid s).plan =
        some (fallback_plan uuid metadata (pyStrip raw))) := by
  have hmain : generate_plan_with_gemini jp uuid metadata raw =
      fallback_plan uuid metadata (pyStrip raw) := by
    unfold generate_plan_with_gemini
    rw [h1]
    rcases hc : extractCandidate (pyStrip raw) with _ | m
    · rfl
    · dsimp only
      rw [h2 m hc]
  refine ⟨hmain, ?_, by norm_num, ?_, ?_, ?_⟩
  · rw [hmain]
    rfl
  · rw [hmain]
    rfl
  · rw [hmain]
    rfl
  · intro s hsm hne
    have h3 : s.metadata.isEmpty = false := by
      rw [hsm]
      cases metadata with
      | nil => exact absurd rfl hm
      | cons c rest => rfl
    have h4 : (s.user_query == "") = false := by
      cases hq : s.user_query == "" with
      | false => rfl
      | true => exact absurd (eq_of_beq hq) hne
    unfold planner_node
    rw [if_neg (by rw [h3, h4]; decide), hsm]
    dsimp only
    rw [hmain]
    rfl

/-- Witness for C6: a delegate answer with no braces and a parse model
that rejects everything yield exactly the fallback plan. -/
theorem planner_fallback_on_unparseable_witness :
    generate_plan_with_gemini jp0 "u1" md1 ("hello".toList) =
      fallback_plan "u1" md1 (pyStrip ("hello".toList)) :=
  (planner_fallback_on_unparseable jp0 "u1" md1 ("hello".toList)
    (by decide) rfl (fun m _ => rfl)).1

/-- Claim C9 (amended): the output stage's parse step, *when it runs*,
turns an unparseable delegate response into `charts = []` plus exactly one
insight holding the stripped raw text (`output_agent.py` lines 89–96);
in the current code that step is unreachable because the stage raises on
the undeclared `queried_output` attribute first. -/
theorem output_parse_fallback_shape (jp : List Char → Option JVal) (content : List Char)
    (h : jp content = none) :
    parse_output_response jp content =
      JVal.jobj [("charts", JVal.jarr []),
        ("insights", JVal.jarr [JVal.jstr (String.mk (pyStrip content))])] ∧
    jlookupV (parse_output_response jp content) "charts" = some (JVal.jarr []) ∧
    jlookupV (parse_output_response jp content) "insights" =
      some (JVal.jarr [JVal.jstr (String.mk (pyStrip content))]) := by
  have h0 : parse_output_response jp content =
      JVal.jobj [("charts", JVal.jarr []),
        ("insights", JVal.jarr [JVal.jstr (String.mk (pyStrip content))])] := by
    unfold parse_output_response
    rw [h]
  exact ⟨h0, by rw [h0]; rfl, by rw [h0]; rfl⟩

/-- Witness for C9's amended statement at a concrete unparseable
response. -/
theorem output_parse_fallback_shape_witness :
    parse_output_response jp0 ("Here are three insights".toList) =
      JVal.jobj [("charts", JVal.jarr []),
        ("insights",
          JVal.jarr [JVal.jstr (String.mk (pyStrip ("Here are three insights".toList)))])] :=
  (output_parse_fallback_shape jp0 ("Here are three insights".toList) rfl).1

/-- Counterexample to C9 as stated: with an unparseable delegate response
ready, invoking the output stage raises the `queried_output`
`AttributeError` instead of producing the degraded output, so no run
terminates with that output. -/
theorem output_stage_dies_before_parse_cex :
    run_output_agent jp0 (Except.ok ("Chart suggestion text".toList)) mainState =
      Except.error attrErr :=
  rfl

/-- Claim C3: the output stage reads the undeclared `queried_output`
attribute and therefore raises before consulting its delegate (its result
is independent of both the delegate and the parse model), and consequently
no run of the compiled graph — any fuel, any oracles, any start node and
state — terminates normally at `END` with an output-stage result. -/
theorem output_stage_blocks_termination :
    (∀ jp jp2 d d2 s, run_output_agent jp d s = run_output_agent jp2 d2 s) ∧
    (∀ jp o fuel k n s, terminatedOk (runG jp o fuel k n s) = false) := by
  refine ⟨fun jp jp2 d d2 s => rfl, ?_⟩
  intro jp o fuel
  induction fuel with
  | zero => intro k n s; rfl
  | succ fuel ih =>
    intro k n s
    cases n with
    | planner => exact ih (k + 1) GNode.sql (planner_node (o.planResp k) jp (o.uuid k) s)
    | sql => exact ih (k + 1) GNode.validator (sql_agent_node (o.sqlResp k) (o.execQ k) s)
    | validator =>
      rcases hc : check_validation (validator_agent_node (o.validResp k) s) with e | r
      · simp only [runG, stepG, hc]
        rfl
      · simp only [runG, stepG, hc]
        by_cases hr : (r == "output_agent") = true
        · rw [if_pos hr]
          exact ih (k + 1) GNode.output (validator_agent_node (o.validResp k) s)
        · rw [if_neg hr]
          exact ih (k + 1) GNode.planner (validator_agent_node (o.validResp k) s)
    | output => rfl

theorem validator_nv_verdict (s : PState) :
    (validator_agent_node (Except.ok ("not valid".toList)) s).validation_result =
      some "not valid" := by
  rcases hp : s.plan with _ | p
  · rw [validator_agent_node_plan_none _ s hp]
    rfl
  · rcases hq : s.queried_data with _ | q
    · rw [validator_agent_node_qd_none _ s hq]
      rfl
    · rw [validator_agent_node_ok _ s p q hp hq]
      show some (parseVerdict ("not valid".toList)) = some "not valid"
      decide

theorem retry_loop_aux (fuel : Nat) : ∀ k s n, n ≠ GNode.output →
    runG jp0 oracleNV fuel k n s = Except.ok none := by
  induction fuel with
  | zero => intro k s n _; rfl
  | succ fuel ih =>
    intro k s n hn
    cases n with
    | planner => exact ih (k + 1) _ GNode.sql (by decide)
    | sql => exact ih (k + 1) _ GNode.validator (by decide)
    | validator =>
      have hb : check_validation (validator_agent_node (Except.ok ("not valid".toList)) s) =
          Except.ok "planner_agent" :=
        check_validation_of_not_valid _ (validator_nv_verdict s)
      simp only [runG, stepG]
      rw [show oracleNV.validResp k = Except.ok ("not valid".toList) from rfl, hb]
      exact ih (k + 1) _ GNode.planner (by decide)
    | output => exact absurd rfl hn

/-- Claim C4: there is no retry cap — with a validator delegate that
answers `not valid` on every pass, the compiled graph cycles
Planning → Querying → Validating → Planning forever: for *every* fuel
bound the run is still unterminated, so the number of planner re-entries
is unbounded (`main.py` lines 29–44 wire no counter and no cap). -/
theorem retry_loop_unbounded (fuel k : Nat) (s : PState) :
    runG jp0 oracleNV fuel k GNode.planner s = Except.ok none :=
  retry_loop_aux fuel k s GNode.planner (by decide)
